import Mathlib

/-!
Verification development for the XRP cross-venue arbitrage bot.

The Python sources are embedded shallowly: prices and monetary amounts become
rationals, database rows become Lean structures, the exchange connector and
the persistence reads become explicit parameters (oracles), and a Python
function that can raise becomes a function returning Option (none = the
exception was raised and handled by the surrounding except block).

Files embedded: core/trade_executor.py, core/risk_controller.py,
core/order_manager.py, core/latency_optimizer.py (calculate_spread_fast),
business/arbitrage_engine.py (the detection path), models.py.
The balance_manager.py and volume_tracker.py files of the repository are not present
under src; the ledger operations and the circuit-breaker activation are
modelled from the specification (sections 4.1 and 4.6), as marked on the
individual definitions.
-/

/-! ## String and number utilities -/

/-- Decides whether the list sub occurs at the head of l (used to embed the
Python substring test). -/
def leadsList : List Char → List Char → Bool
  | [], _ => true
  | _ :: _, [] => false
  | a :: s, b :: t => a == b && leadsList s t

/-- Decides whether sub occurs somewhere inside l. -/
def hasSubList (sub : List Char) : List Char → Bool
  | [] => leadsList sub []
  | c :: t => leadsList sub (c :: t) || hasSubList sub t

/-- Embeds the Python membership test of one string inside another
(the expression sub in s). -/
def strHasSub (s sub : String) : Bool :=
  hasSubList sub.data s.data

/-- Nearest integer multiple of 10 to the power minus n, ties to even:
the rounding Python applies inside round() and the fixed-point string
formats. The result is given in units of 10 to the power minus n. -/
def decRound (q : ℚ) (n : ℕ) : ℤ :=
  let s : ℚ := q * ((10 : ℚ) ^ n)
  let f : ℤ := ⌊s⌋
  let r : ℚ := s - f
  if r < 1/2 then f else if 1/2 < r then f + 1 else if f % 2 = 0 then f else f + 1

/-- Python round(q, n) on exact rational data. -/
def roundTo (q : ℚ) (n : ℕ) : ℚ :=
  (decRound q n : ℚ) / ((10 : ℚ) ^ n)

/-- Pads a digit string with leading zeros up to width n. -/
def padZeros (s : String) (n : ℕ) : String :=
  String.mk (List.replicate (n - s.length) '0') ++ s

/-- Python fixed-point formatting with n digits after the point,
as in the risk-controller reason strings. -/
def fmtFixed (q : ℚ) (n : ℕ) : String :=
  let m := decRound q n
  let sign := if m < 0 then "-" else ""
  let a := m.natAbs
  let ip := a / 10 ^ n
  let fp := a % 10 ^ n
  sign ++ toString ip ++ "." ++ padZeros (toString fp) n

/-! ## Data model (models.py) -/

/-- The three currencies of models.py Balance rows. -/
inductive Currency
  | XRP
  | USDT
  | USDC
deriving DecidableEq

/-- Balance row of models.py: amount is the total holding, locked the part
reserved against in-flight orders; available funds are amount - locked. -/
structure Balance where
  amount : ℚ
  locked : ℚ
deriving DecidableEq

/-- One Balance row per currency, as the Balance table holds. -/
structure Ledger where
  xrp : Balance
  usdt : Balance
  usdc : Balance
deriving DecidableEq

def getBal (l : Ledger) : Currency → Balance
  | Currency.XRP => l.xrp
  | Currency.USDT => l.usdt
  | Currency.USDC => l.usdc

def setBal (l : Ledger) (c : Currency) (b : Balance) : Ledger :=
  match c with
  | Currency.XRP => { l with xrp := b }
  | Currency.USDT => { l with usdt := b }
  | Currency.USDC => { l with usdc := b }

def availableOf (b : Balance) : ℚ :=
  b.amount - b.locked

/-- Modelled from the spec: BalanceLedger.lock of section 4.1
(balance_manager.py is not under src). Fails with InsufficientFunds when
available < amount, else moves amount from available to locked;
none renders the raised exception. -/
def lock_balance (l : Ledger) (c : Currency) (a : ℚ) : Option Ledger :=
  let b := getBal l c
  if availableOf b < a then none
  else some (setBal l c { b with locked := b.locked + a })

/-- Modelled from the spec: BalanceLedger.unlock of section 4.1
(balance_manager.py is not under src). Fails with OverUnlock when
amount > locked, else reverses the move. -/
def unlock_balance (l : Ledger) (c : Currency) (a : ℚ) : Option Ledger :=
  let b := getBal l c
  if b.locked < a then none
  else some (setBal l c { b with locked := b.locked - a })

/-- Modelled from the spec: BalanceLedger.adjust of section 4.1
(balance_manager.py is not under src; the executor calls it as
update_balance). Applies a signed change to the total and fails with
NegativeBalance when the result would be negative. -/
def update_balance (l : Ledger) (c : Currency) (d : ℚ) : Option Ledger :=
  let b := getBal l c
  if b.amount + d < 0 then none
  else some (setBal l c { b with amount := b.amount + d })

/-- Modelled from the spec: the sufficiency test the executor runs before
locking; true when available funds cover the amount. -/
def check_sufficient_balance (l : Ledger) (c : Currency) (a : ℚ) : Bool :=
  decide (a ≤ availableOf (getBal l c))

/-- An unlock attempt inside a Python try/except pass block: on OverUnlock
the ledger is left unchanged. -/
def tryUnlock (l : Ledger) (c : Currency) (a : ℚ) : Ledger :=
  (unlock_balance l c a).getD l

/-- The currency the pair string quotes against, as the executor computes it
by testing whether the substring USDT occurs in the pair. -/
def currencyOfPair (pair : String) : Currency :=
  if strHasSub pair ("USDT") then Currency.USDT else Currency.USDC

/-- Balance-row invariant claimed by the spec: nothing locked is negative and
nothing locked exceeds the total. -/
def ValidBalance (b : Balance) : Prop :=
  0 ≤ b.locked ∧ b.locked ≤ b.amount

/-- Ledger invariant of the spec, for every currency row. -/
def ValidLedger (l : Ledger) : Prop :=
  ValidBalance l.xrp ∧ ValidBalance l.usdt ∧ ValidBalance l.usdc

/-- Locked amounts are nonnegative on every row. -/
def NonnegLocked (l : Ledger) : Prop :=
  0 ≤ l.xrp.locked ∧ 0 ≤ l.usdt.locked ∧ 0 ≤ l.usdc.locked

/-! ## calculate_spread_fast (core/latency_optimizer.py, lines 354-377) -/

/-- Return value of calculate_spread_fast; usdt_higher is none in the
invalid-input dictionary, which omits that key. -/
structure SpreadFast where
  spread : ℚ
  spread_pct : ℚ
  usdt_higher : Option Bool
  valid : Bool
deriving DecidableEq

/-- LatencyOptimizer.calculate_spread_fast: guarded spread computation.
The source rounds the absolute spread to 6 and the percentage to 4 decimal
places before returning them. -/
def calculate_spread_fast (usdt_price usdc_price : ℚ) : SpreadFast :=
  if usdt_price ≤ 0 ∨ usdc_price ≤ 0 then
    { spread := 0, spread_pct := 0, usdt_higher := none, valid := false }
  else
    let spread := |usdt_price - usdc_price|
    let min_price := min usdt_price usdc_price
    let spread_pct := spread / min_price * 100
    { spread := roundTo spread 6
      spread_pct := roundTo spread_pct 4
      usdt_higher := some (decide (usdt_price > usdc_price))
      valid := true }

/-! ## Configuration and detection-cycle inputs -/

/-- TradingConfig row of models.py, as the core reads it. -/
structure TradingConfig where
  spread_threshold : ℚ
  trade_amount : ℚ
  daily_max_volume : ℚ
  risk_buffer : ℚ
  max_pending_orders : ℕ
deriving DecidableEq

/-- Snapshot of the database reads and balance reads the risk controller and
the detector perform in one cycle: amounts of the completed and pending trades of today,
free balances per currency, the pending-order count, the price
samples of the last five minutes (at most twenty), and the number of trades
created in the last thirty seconds. -/
structure RiskEnv where
  todayTradeAmounts : List ℚ
  xrpFree : ℚ
  usdtFree : ℚ
  usdcFree : ℚ
  pendingCount : ℕ
  recentPrices : List ℚ
  recentTradeCount : ℕ
deriving DecidableEq

/-- The opportunity dictionary built by
ArbitrageEngine._detect_arbitrage_opportunity. -/
structure Opportunity where
  usdt_price : ℚ
  usdc_price : ℚ
  spread : ℚ
  spread_percentage : ℚ
  opportunity_type : String
  sell_pair : String
  buy_pair : String
  sell_price : ℚ
  buy_price : ℚ
  amount : ℚ
  estimated_profit : ℚ
  gross_profit : ℚ
  estimated_fees : ℚ
  volume_usdt : ℚ
  volume_usdc : ℚ
  spread_multiplier : ℚ
deriving DecidableEq

/-! ## RiskController (core/risk_controller.py) -/

/-- The safe/reason dictionary every risk check returns. -/
structure RiskResult where
  safe : Bool
  reason : String
deriving DecidableEq

/-- RiskController._check_daily_volume_limit: the completed plus pending
volume plus the candidate must not exceed the daily limit. The limit is
interpolated into the reason with Python str on a float; it is rendered here
with one decimal. -/
def check_daily_volume_limit (env : RiskEnv) (trade_amount daily_limit : ℚ) : RiskResult :=
  let today_volume := env.todayTradeAmounts.sum
  if today_volume + trade_amount > daily_limit then
    { safe := false
      reason := "Daily volume limit exceeded: " ++ fmtFixed (today_volume + trade_amount) 2
        ++ " > " ++ fmtFixed daily_limit 1 }
  else
    { safe := true, reason := "Volume limit OK" }

/-- RiskController._check_balance_safety: free XRP must cover the amount plus
the risk buffer, and at least one stablecoin must cover the estimated cost
plus the buffer (estimated price 0.52). -/
def check_balance_safety (env : RiskEnv) (trade_amount risk_buffer : ℚ) : RiskResult :=
  let xrp_balance := env.xrpFree
  let required_xrp := trade_amount * (1 + risk_buffer)
  if xrp_balance < required_xrp then
    { safe := false
      reason := "Insufficient XRP balance with safety margin: " ++ fmtFixed xrp_balance 2
        ++ " < " ++ fmtFixed required_xrp 2 }
  else
    let estimated_price : ℚ := 0.52
    let required_stable := trade_amount * estimated_price * (1 + risk_buffer)
    if env.usdtFree < required_stable ∧ env.usdcFree < required_stable then
      { safe := false, reason := "Insufficient stablecoin balance with safety margin" }
    else
      { safe := true, reason := "Balance safety OK" }

/-- RiskController._check_pending_orders_limit. -/
def check_pending_orders_limit (env : RiskEnv) (max_pending : ℕ) : RiskResult :=
  if env.pendingCount ≥ max_pending then
    { safe := false
      reason := "Too many pending orders: " ++ toString env.pendingCount
        ++ " >= " ++ toString max_pending }
  else
    { safe := true, reason := "Pending orders OK" }

/-- RiskController._check_price_volatility: skipped (safe) with fewer than
five recent samples, else the relative range of the recent prices must not
exceed two percent. -/
def check_price_volatility (env : RiskEnv) : RiskResult :=
  if env.recentPrices.length < 5 then
    { safe := true, reason := "Insufficient price history for volatility check" }
  else
    let max_price := env.recentPrices.max?.getD 0
    let min_price := env.recentPrices.min?.getD 0
    let volatility := (max_price - min_price) / min_price
    if volatility > 0.02 then
      { safe := false, reason := "High price volatility detected: " ++ fmtFixed volatility 4 }
    else
      { safe := true, reason := "Price volatility OK" }

/-- RiskController._check_spread_validity: the field
spread_percentage of the opportunity (a value in percent units) is compared with the raw
config threshold and with the constant 0.05. -/
def check_spread_validity (opp : Opportunity) (min_spread : ℚ) : RiskResult :=
  let current_spread := opp.spread_percentage
  if current_spread < min_spread then
    { safe := false
      reason := "Spread too small: " ++ fmtFixed current_spread 4
        ++ " < " ++ fmtFixed min_spread 4 }
  else if current_spread > 0.05 then
    { safe := false
      reason := "Spread too large, possible data error: " ++ fmtFixed current_spread 4 }
  else
    { safe := true, reason := "Spread validity OK" }

/-- RiskController._check_trading_frequency with its default thirty-second
window: any trade created inside the window blocks. -/
def check_trading_frequency (env : RiskEnv) : RiskResult :=
  if env.recentTradeCount > 0 then
    { safe := false
      reason := "Trading too frequently: " ++ toString env.recentTradeCount
        ++ " trades in last 30s" }
  else
    { safe := true, reason := "Trading frequency OK" }

/-- RiskController.check_trade_risk: the six checks in source order, each
failure returned immediately. -/
def check_trade_risk (env : RiskEnv) (opp : Opportunity) (cfg : TradingConfig) : RiskResult :=
  let volume_check := check_daily_volume_limit env opp.amount cfg.daily_max_volume
  if volume_check.safe = false then volume_check
  else
    let balance_check := check_balance_safety env opp.amount cfg.risk_buffer
    if balance_check.safe = false then balance_check
    else
      let pending_check := check_pending_orders_limit env cfg.max_pending_orders
      if pending_check.safe = false then pending_check
      else
        let volatility_check := check_price_volatility env
        if volatility_check.safe = false then volatility_check
        else
          let spread_check := check_spread_validity opp cfg.spread_threshold
          if spread_check.safe = false then spread_check
          else
            let frequency_check := check_trading_frequency env
            if frequency_check.safe = false then frequency_check
            else { safe := true, reason := "All risk checks passed" }

/-- First unsafe result of a list of check results, else the all-passed
result: the shape of a fail-fast gate. -/
def firstFailure : List RiskResult → RiskResult
  | [] => { safe := true, reason := "All risk checks passed" }
  | r :: rs => if r.safe then firstFailure rs else r

/-- RiskController.calculate_max_safe_trade_amount: minimum of the buffered
XRP balance, the remaining daily volume and the configured per-trade amount,
floored at zero. -/
def calculate_max_safe_trade_amount (env : RiskEnv) (cfg : TradingConfig) : ℚ :=
  let max_xrp := env.xrpFree * (1 - cfg.risk_buffer)
  let today_volume := env.todayTradeAmounts.sum
  let remaining_daily_volume := cfg.daily_max_volume - today_volume
  max 0 (min (min max_xrp remaining_daily_volume) cfg.trade_amount)

/-! ## Opportunity detection (business/arbitrage_engine.py, lines 462-555) -/

/-- Latest price and 24h volume of one pair as the price monitor reports it. -/
structure PricePoint where
  price : ℚ
  volume : ℚ
deriving DecidableEq

/-- Percentage spread of the two quotes, relative to the lower one, as the
detector computes it in both direction branches. -/
def spreadPctOf (usdt_price usdc_price : ℚ) : ℚ :=
  if usdt_price > usdc_price then (usdt_price - usdc_price) / usdc_price * 100
  else (usdc_price - usdt_price) / usdt_price * 100

/-- ArbitrageEngine._detect_arbitrage_opportunity, with the price-monitor
read and the database reads of the risk controller passed in as parameters. -/
def detect_arbitrage_opportunity (env : RiskEnv) (cfg : TradingConfig)
    (usdt : PricePoint) (usdc : PricePoint) : Option Opportunity :=
  let usdt_price := usdt.price
  let usdc_price := usdc.price
  let dir :=
    if usdt_price > usdc_price then
      (((usdt_price - usdc_price) / usdc_price) * 100, "sell_usdt_buy_usdc",
        "XRP/USDT", "XRP/USDC", usdt_price, usdc_price, usdt_price, usdc_price)
    else
      (((usdc_price - usdt_price) / usdt_price) * 100, "sell_usdc_buy_usdt",
        "XRP/USDC", "XRP/USDT", usdc_price, usdt_price, usdc_price, usdt_price)
  match dir with
  | (spread_percentage, opportunity_type, sell_pair, buy_pair, sell_price, buy_price,
      higher_price, lower_price) =>
    let spread := higher_price - lower_price
    let minimum_profitable_spread : ℚ := 0.08
    if spread_percentage < max (cfg.spread_threshold * 100) minimum_profitable_spread then
      none
    else
      let min_volume_24h : ℚ := 1000
      if usdt.volume < min_volume_24h ∨ usdc.volume < min_volume_24h then none
      else
        let max_safe_amount := calculate_max_safe_trade_amount env cfg
        let spread_multiplier := min 2 (spread_percentage / 0.3)
        let adjusted_base_amount := cfg.trade_amount * spread_multiplier
        let trade_amount := min adjusted_base_amount max_safe_amount
        if trade_amount ≤ 0 then none
        else
          let gross_profit := trade_amount * spread
          let estimated_fees := trade_amount * (sell_price + buy_price) * 0.0006
          let estimated_net_profit := gross_profit - estimated_fees
          let min_profit_threshold : ℚ := 0.10
          if estimated_net_profit < min_profit_threshold then none
          else
            some
              { usdt_price := usdt_price
                usdc_price := usdc_price
                spread := spread
                spread_percentage := spread_percentage
                opportunity_type := opportunity_type
                sell_pair := sell_pair
                buy_pair := buy_pair
                sell_price := sell_price
                buy_price := buy_price
                amount := trade_amount
                estimated_profit := estimated_net_profit
                gross_profit := gross_profit
                estimated_fees := estimated_fees
                volume_usdt := usdt.volume
                volume_usdc := usdc.volume
                spread_multiplier := spread_multiplier }

/-! ## Trade records and the exchange connector -/

/-- Trade row of models.py. Timestamps are abstract ticks; order_id is the
exchange identifier once the order was submitted. -/
structure Trade where
  trade_type : String
  pair : String
  amount : ℚ
  price : ℚ
  total_value : ℚ
  status : String
  order_id : Option ℕ
  profit_loss : Option ℚ
  created_at : ℕ
  completed_at : Option ℕ
deriving DecidableEq

/-- The abstract exchange connector of section 6 of the spec (api_connector.py
and mexc_connector.py are not under src; both expose this interface).
create_order takes symbol, order type, side and amount and yields the order
id and realized price; none renders a raised exception. get_order_status
yields the status string; cancel_order yields the success flag. -/
structure APIConn where
  create_order : String → String → String → ℚ → Option (ℕ × ℚ)
  get_order_status : ℕ → String → Option String
  cancel_order : ℕ → String → Option Bool

/-- Timestamped execution event, the instrument for the ordering claims:
submit events are recorded when an order is handed to the connector,
complete events when a trade row reaches completed and is committed. -/
structure Ev where
  tag : String
  time : ℕ
deriving DecidableEq

/-- Result of one executed leg: the committed trade (none when the leg
failed and its exception handler returned None), the ledger afterwards, the
events of the leg and the clock afterwards. -/
structure LegResult where
  trade : Option Trade
  led : Ledger
  log : List Ev
  clock : ℕ

/-! ## TradeExecutor (core/trade_executor.py) -/

/-- TradeExecutor._execute_sell_order. The except branch rolls the trade row
back, attempts one unlock of the XRP amount (swallowing an unlock failure)
and returns none. On a closed order the trade completes and the ledger
settles: unlock XRP, decrement XRP, credit the received stablecoin. On any
other reported status the pending trade row is committed and returned. -/
def execute_sell_order (api : APIConn) (led : Ledger) (pair : String)
    (amount expected_price : ℚ) (t : ℕ) : LegResult :=
  if check_sufficient_balance led Currency.XRP amount then
    match lock_balance led Currency.XRP amount with
    | none => { trade := none, led := tryUnlock led Currency.XRP amount, log := [], clock := t }
    | some led1 =>
      let trade0 : Trade :=
        { trade_type := "sell", pair := pair, amount := amount, price := expected_price
          total_value := amount * expected_price, status := "pending", order_id := none
          profit_loss := none, created_at := t, completed_at := none }
      match api.create_order pair ("market") ("sell") amount with
      | none =>
        { trade := none, led := tryUnlock led1 Currency.XRP amount
          log := [{ tag := "submit_sell", time := t }], clock := t + 1 }
      | some (oid, price) =>
        let trade1 := { trade0 with order_id := some oid, price := price
                                    total_value := amount * price }
        match api.get_order_status oid pair with
        | none =>
          { trade := none, led := tryUnlock led1 Currency.XRP amount
            log := [{ tag := "submit_sell", time := t }], clock := t + 1 }
        | some st =>
          if st = "closed" then
            let trade2 := { trade1 with status := "completed", completed_at := some (t + 1) }
            match unlock_balance led1 Currency.XRP amount with
            | none =>
              { trade := none, led := tryUnlock led1 Currency.XRP amount
                log := [{ tag := "submit_sell", time := t }], clock := t + 2 }
            | some led2 =>
              match update_balance led2 Currency.XRP (-amount) with
              | none =>
                { trade := none, led := tryUnlock led2 Currency.XRP amount
                  log := [{ tag := "submit_sell", time := t }], clock := t + 2 }
              | some led3 =>
                match update_balance led3 (currencyOfPair pair) trade2.total_value with
                | none =>
                  { trade := none, led := tryUnlock led3 Currency.XRP amount
                    log := [{ tag := "submit_sell", time := t }], clock := t + 2 }
                | some led4 =>
                  { trade := some trade2, led := led4
                    log := [{ tag := "submit_sell", time := t },
                            { tag := "complete_sell", time := t + 1 }]
                    clock := t + 2 }
          else
            { trade := some trade1, led := led1
              log := [{ tag := "submit_sell", time := t }], clock := t + 1 }
  else
    { trade := none, led := tryUnlock led Currency.XRP amount, log := [], clock := t }

/-- TradeExecutor._execute_buy_order, the mirror leg: the stablecoin of the
pair is locked at the expected cost, settled at the realized cost. -/
def execute_buy_order (api : APIConn) (led : Ledger) (pair : String)
    (amount expected_price : ℚ) (t : ℕ) : LegResult :=
  let currency := currencyOfPair pair
  let required_value := amount * expected_price
  if check_sufficient_balance led currency required_value then
    match lock_balance led currency required_value with
    | none => { trade := none, led := tryUnlock led currency required_value, log := [], clock := t }
    | some led1 =>
      let trade0 : Trade :=
        { trade_type := "buy", pair := pair, amount := amount, price := expected_price
          total_value := required_value, status := "pending", order_id := none
          profit_loss := none, created_at := t, completed_at := none }
      match api.create_order pair ("market") ("buy") amount with
      | none =>
        { trade := none, led := tryUnlock led1 currency required_value
          log := [{ tag := "submit_buy", time := t }], clock := t + 1 }
      | some (oid, price) =>
        let trade1 := { trade0 with order_id := some oid, price := price
                                    total_value := amount * price }
        match api.get_order_status oid pair with
        | none =>
          { trade := none, led := tryUnlock led1 currency required_value
            log := [{ tag := "submit_buy", time := t }], clock := t + 1 }
        | some st =>
          if st = "closed" then
            let trade2 := { trade1 with status := "completed", completed_at := some (t + 1) }
            match unlock_balance led1 currency required_value with
            | none =>
              { trade := none, led := tryUnlock led1 currency required_value
                log := [{ tag := "submit_buy", time := t }], clock := t + 2 }
            | some led2 =>
              match update_balance led2 currency (-trade2.total_value) with
              | none =>
                { trade := none, led := tryUnlock led2 currency required_value
                  log := [{ tag := "submit_buy", time := t }], clock := t + 2 }
              | some led3 =>
                match update_balance led3 Currency.XRP amount with
                | none =>
                  { trade := none, led := tryUnlock led3 currency required_value
                    log := [{ tag := "submit_buy", time := t }], clock := t + 2 }
                | some led4 =>
                  { trade := some trade2, led := led4
                    log := [{ tag := "submit_buy", time := t },
                            { tag := "complete_buy", time := t + 1 }]
                    clock := t + 2 }
          else
            { trade := some trade1, led := led1
              log := [{ tag := "submit_buy", time := t }], clock := t + 1 }
  else
    { trade := none, led := tryUnlock led currency required_value, log := [], clock := t }

/-- Return value of execute_arbitrage_trade: None, the bare sell trade when
the buy leg failed after the sell leg (the partially-hedged return of line
53 of trade_executor.py), or the result dictionary with both trades and the
profit/loss. -/
inductive ExecResult
  | failed
  | sellOnly (sell : Trade)
  | success (sell : Trade) (buy : Trade) (profit_loss : ℚ)
deriving DecidableEq

/-- Full outcome of one arbitrage execution. -/
structure ExecOut where
  result : ExecResult
  led : Ledger
  log : List Ev

/-- TradeExecutor.execute_arbitrage_trade: the sell leg always runs first;
a failed sell aborts with None; a failed buy after a returned sell trade
yields the bare sell trade; otherwise the profit/loss is split across the
two trades and both are returned. -/
def execute_arbitrage_trade (api : APIConn) (led : Ledger) (opp : Opportunity)
    (t : ℕ) : ExecOut :=
  let s := execute_sell_order api led opp.sell_pair opp.amount opp.sell_price t
  match s.trade with
  | none => { result := ExecResult.failed, led := s.led, log := s.log }
  | some sell_trade =>
    let b := execute_buy_order api s.led opp.buy_pair opp.amount opp.buy_price s.clock
    match b.trade with
    | none => { result := ExecResult.sellOnly sell_trade, led := b.led, log := s.log ++ b.log }
    | some buy_trade =>
      let profit_loss := sell_trade.total_value - buy_trade.total_value
      { result := ExecResult.success
          { sell_trade with profit_loss := some (profit_loss / 2) }
          { buy_trade with profit_loss := some (profit_loss / 2) }
          profit_loss
        led := b.led, log := s.log ++ b.log }

/-! ## OrderManager (core/order_manager.py) and the circuit breaker -/

/-- State of one circuit-breaker category, per the
CircuitBreakerState of the spec: activation flag, reason, last reported value and
threshold. -/
structure BreakerState where
  active : Bool
  reason : String
  value : Option ℕ
  threshold : Option ℕ
deriving DecidableEq

/-- Modelled from the spec: VolumeTracker.activate_circuit_breaker
(volume_tracker.py is not under src; spec section 4.6). Flips the named
category to active with the given reason, value and threshold; other
categories are untouched; it never self-clears. -/
def activate_circuit_breaker (cb : String → BreakerState) (category reason : String)
    (value threshold : Option ℕ) : String → BreakerState :=
  fun c =>
    if c = category then
      { active := true, reason := reason, value := value, threshold := threshold }
    else cb c

/-- OrderManager.timeout_configs with the default 30 for unknown types. -/
def timeout_configs (order_type : String) : ℕ :=
  if order_type = "limit_order" then 30
  else if order_type = "market_order" then 10
  else if order_type = "arbitrage_order" then 20
  else 30

/-- Python str.lower on the character list of a string. -/
def lowerStr (s : String) : String :=
  String.mk (s.data.map Char.toLower)

/-- OrderManager._classify_order_type. The Trade model has no order_type
column, so the hasattr branch of the source never fires; classification
falls through to the size and pair heuristics. -/
def classify_order_type (trade : Trade) : String :=
  if trade.amount > 500 then "limit_order"
  else if strHasSub (lowerStr trade.pair) ("arbitrage") then "arbitrage_order"
  else "market_order"

/-- OrderManager._unlock_trade_balances: release the reservation of the
leg of the trade; a ledger failure is swallowed by the handler. -/
def unlock_trade_balances (led : Ledger) (trade : Trade) : Ledger :=
  if trade.trade_type = "sell" then tryUnlock led Currency.XRP trade.amount
  else tryUnlock led (currencyOfPair trade.pair) trade.total_value

/-- OrderManager._update_balances_for_completed_trade: ledger settlement of
a leg the exchange reports closed; an exception stops the sequence where it
occurred and is swallowed by the handler (earlier steps persist). -/
def update_balances_for_completed_trade (led : Ledger) (trade : Trade) : Ledger :=
  if trade.trade_type = "sell" then
    match unlock_balance led Currency.XRP trade.amount with
    | none => led
    | some l1 =>
      match update_balance l1 Currency.XRP (-trade.amount) with
      | none => l1
      | some l2 =>
        match update_balance l2 (currencyOfPair trade.pair) trade.total_value with
        | none => l2
        | some l3 => l3
  else
    let currency := currencyOfPair trade.pair
    match unlock_balance led currency trade.total_value with
    | none => led
    | some l1 =>
      match update_balance l1 currency (-trade.total_value) with
      | none => l1
      | some l2 =>
        match update_balance l2 Currency.XRP trade.amount with
        | none => l2
        | some l3 => l3

/-- State the supervisor threads through one handled trade: the trade row,
the ledger, the per-type timeout counters and the circuit-breaker map. -/
structure SupOut where
  trade : Trade
  led : Ledger
  counts : String → ℕ
  cb : String → BreakerState

/-- OrderManager._handle_timeout_order: query the connector for the final
status (closed completes and settles; partial is left pending; anything
else is cancelled, timeout_cancelled on success and timeout_failed on
failure, with the reservation unlocked; a connector exception yields
timeout_error with the reservation unlocked). A trade without an order id
is left untouched. The per-type counter then always increments, and a count
above five activates the order_timeout circuit breaker. -/
def handle_timeout_order (api : APIConn) (led : Ledger) (counts : String → ℕ)
    (cb : String → BreakerState) (trade : Trade) (order_type : String) (now : ℕ) : SupOut :=
  let step :=
    match trade.order_id with
    | none => (trade, led)
    | some oid =>
      match api.get_order_status oid trade.pair with
      | none => ({ trade with status := "timeout_error" }, unlock_trade_balances led trade)
      | some st =>
        if st = "closed" then
          ({ trade with status := "completed", completed_at := some now },
            update_balances_for_completed_trade led trade)
        else if st = "partial" then (trade, led)
        else
          match api.cancel_order oid trade.pair with
          | none => ({ trade with status := "timeout_error" }, unlock_trade_balances led trade)
          | some true =>
            ({ trade with status := "timeout_cancelled" }, unlock_trade_balances led trade)
          | some false =>
            ({ trade with status := "timeout_failed" }, unlock_trade_balances led trade)
  let counts1 : String → ℕ :=
    fun ty => if ty = order_type then counts order_type + 1 else counts ty
  let cb1 :=
    if counts1 order_type > 5 then
      activate_circuit_breaker cb ("order_timeout")
        ("过多" ++ order_type ++ "订单超时: " ++ toString (counts1 order_type) ++ "次")
        (some (counts1 order_type)) (some 5)
    else cb
  { trade := step.1, led := step.2, counts := counts1, cb := cb1 }

/-- Per-trade body of OrderManager._check_timeout_orders at wall-clock time
now: only pending trades older than their type-specific timeout are handed
to the timeout handler. -/
def supervise_trade_step (api : APIConn) (led : Ledger) (counts : String → ℕ)
    (cb : String → BreakerState) (trade : Trade) (now : ℕ) : SupOut :=
  if trade.status = "pending" then
    let order_age := now - trade.created_at
    let order_type := classify_order_type trade
    let timeout_seconds := timeout_configs order_type
    if order_age > timeout_seconds then
      handle_timeout_order api led counts cb trade order_type now
    else { trade := trade, led := led, counts := counts, cb := cb }
  else { trade := trade, led := led, counts := counts, cb := cb }

/-- Terminal trade statuses the supervisor can assign. -/
def isTerminalStatus (s : String) : Bool :=
  s = "completed" || s = "timeout_cancelled" || s = "timeout_failed" || s = "timeout_error"

/-- Iterates the supervisor pass on one trade at poll times now, now + p,
now + 2p and so on, n times, keeping only the trade row (used to exhibit a
trade no number of passes resolves). -/
def superviseIter (api : APIConn) (trade : Trade) (now p : ℕ) : ℕ → Trade
  | 0 => trade
  | n + 1 =>
    superviseIter api
      (supervise_trade_step api
        { xrp := { amount := 0, locked := 0 }, usdt := { amount := 0, locked := 0 }
          usdc := { amount := 0, locked := 0 } }
        (fun _ => 0) (fun _ => BreakerState.mk false "" none none) trade now).trade
      (now + p) p n

/-! ## Concrete fixtures used by witnesses and counterexamples -/

/-- Status of the sell trade carried by an execution result. -/
def sellStatusOf : ExecResult → Option String
  | ExecResult.failed => none
  | ExecResult.sellOnly s => some s.status
  | ExecResult.success s _ _ => some s.status

/-- Status of the buy trade carried by a full-success execution result. -/
def buyStatusOf : ExecResult → Option String
  | ExecResult.success _ b _ => some b.status
  | _ => none

/-- True exactly on the ordinary-success result dictionary. -/
def isSuccessRes : ExecResult → Bool
  | ExecResult.success _ _ _ => true
  | _ => false

/-- A ledger holding 1000 of each currency, nothing locked. -/
def led0 : Ledger :=
  { xrp := { amount := 1000, locked := 0 }
    usdt := { amount := 1000, locked := 0 }
    usdc := { amount := 1000, locked := 0 } }

/-- The Example-1 opportunity of the spec: sell 100 XRP on XRP/USDT at 0.5210,
buy on XRP/USDC at 0.5190. -/
def opp0 : Opportunity :=
  { usdt_price := 0.5210, usdc_price := 0.5190, spread := 0.0020
    spread_percentage := (0.5210 - 0.5190) / 0.5190 * 100
    opportunity_type := "sell_usdt_buy_usdc"
    sell_pair := "XRP/USDT", buy_pair := "XRP/USDC"
    sell_price := 0.5210, buy_price := 0.5190, amount := 100
    estimated_profit := 0.1376, gross_profit := 0.2, estimated_fees := 0.0624
    volume_usdt := 5000, volume_usdc := 5000, spread_multiplier := 1 }

/-- An opportunity whose percentage spread is 0.385 (that is, 0.385 percent),
between the 0.3 percent minimum and 5 percent. -/
def opp385 : Opportunity :=
  { usdt_price := 0.5210, usdc_price := 0.5190, spread := 0.0020
    spread_percentage := 0.385
    opportunity_type := "sell_usdt_buy_usdc"
    sell_pair := "XRP/USDT", buy_pair := "XRP/USDC"
    sell_price := 0.5210, buy_price := 0.5190, amount := 100
    estimated_profit := 0.1376, gross_profit := 0.2, estimated_fees := 0.0624
    volume_usdt := 5000, volume_usdc := 5000, spread_multiplier := 1 }

/-- Cycle snapshot with ample balances, no prior trades today, no pending
orders and no recent activity. -/
def env1 : RiskEnv :=
  { todayTradeAmounts := [], xrpFree := 200, usdtFree := 1000, usdcFree := 1000
    pendingCount := 0, recentPrices := [], recentTradeCount := 0 }

/-- Configuration used by the spec examples: threshold 0.003, per-trade amount
100, daily cap 5000, risk buffer 0.1, at most 3 pending orders. -/
def cfg1 : TradingConfig :=
  { spread_threshold := 0.003, trade_amount := 100, daily_max_volume := 5000
    risk_buffer := 0.1, max_pending_orders := 3 }

/-- Cycle snapshot of Example 3 of the spec: 80 free XRP. -/
def env80 : RiskEnv :=
  { todayTradeAmounts := [], xrpFree := 80, usdtFree := 1000, usdcFree := 1000
    pendingCount := 0, recentPrices := [], recentTradeCount := 0 }

/-- Connector that fills the sell order (id 1) and the buy order (id 2) and
reports both closed. -/
def connAllClosed : APIConn :=
  { create_order := fun _sym _ty side _amt =>
      if side = "sell" then some (1, 0.5210) else some (2, 0.5190)
    get_order_status := fun _oid _pair => some ("closed")
    cancel_order := fun _oid _pair => some true }

/-- Connector that accepts both orders but reports the sell order (id 1)
still open while the buy order (id 2) is closed. -/
def connSellOpen : APIConn :=
  { create_order := fun _sym _ty side _amt =>
      if side = "sell" then some (1, 0.5210) else some (2, 0.5190)
    get_order_status := fun oid _pair => if oid = 1 then some ("open") else some ("closed")
    cancel_order := fun _oid _pair => some true }

/-- Connector that closes the sell order (id 1) but leaves the buy order
(id 2) open. -/
def connBuyOpen : APIConn :=
  { create_order := fun _sym _ty side _amt =>
      if side = "sell" then some (1, 0.5210) else some (2, 0.5190)
    get_order_status := fun oid _pair => if oid = 1 then some ("closed") else some ("open")
    cancel_order := fun _oid _pair => some true }

/-- Connector that closes the sell order but raises on the buy submission. -/
def connBuyRaises : APIConn :=
  { create_order := fun _sym _ty side _amt =>
      if side = "sell" then some (1, 0.5210) else none
    get_order_status := fun _oid _pair => some ("closed")
    cancel_order := fun _oid _pair => some true }

/-- A pending sell trade that never obtained an exchange order id (its
submission was recorded without one). -/
def tradeNoOrderId : Trade :=
  { trade_type := "sell", pair := "XRP/USDT", amount := 100, price := 0.5210
    total_value := 52.10, status := "pending", order_id := none, profit_loss := none
    created_at := 0, completed_at := none }

/-- A pending sell trade with exchange order id 1, created at tick 0. -/
def tradePending1 : Trade :=
  { trade_type := "sell", pair := "XRP/USDT", amount := 100, price := 0.5210
    total_value := 52.10, status := "pending", order_id := some 1, profit_loss := none
    created_at := 0, completed_at := none }

/-- The completed sell trade the executor commits when connBuyRaises fills
the sell leg of opp0 at tick 0. -/
def tradeSellDone : Trade :=
  { trade_type := "sell", pair := "XRP/USDT", amount := 100, price := 0.5210
    total_value := 52.10, status := "completed", order_id := some 1, profit_loss := none
    created_at := 0, completed_at := some 1 }

/-- All-inactive circuit-breaker map. -/
def cbInit : String → BreakerState :=
  fun _ => { active := false, reason := "", value := none, threshold := none }

/-! ## Helper lemmas -/

theorem fmtFixed_80_2 : fmtFixed 80 2 = "80.00" := by
  have h : decRound 80 2 = 8000 := by norm_num [decRound]
  simp only [fmtFixed, h]
  decide

theorem fmtFixed_110_2 : fmtFixed 110 2 = "110.00" := by
  have h : decRound 110 2 = 11000 := by norm_num [decRound]
  simp only [fmtFixed, h]
  decide

theorem fmtFixed_0385_4 : fmtFixed 0.385 4 = "0.3850" := by
  have h : decRound 0.385 4 = 3850 := by norm_num [decRound]
  simp only [fmtFixed, h]
  decide

theorem setBal_valid (l : Ledger) (c : Currency) (b : Balance)
    (hv : ValidLedger l) (hb : ValidBalance b) : ValidLedger (setBal l c b) := by
  cases c <;> simp only [setBal, ValidLedger] at * <;> tauto

theorem getBal_valid (l : Ledger) (c : Currency) (hv : ValidLedger l) :
    ValidBalance (getBal l c) := by
  cases c <;> simp only [getBal, ValidLedger] at * <;> tauto

theorem setBal_nonneg (l : Ledger) (c : Currency) (b : Balance)
    (hv : NonnegLocked l) (hb : 0 ≤ b.locked) : NonnegLocked (setBal l c b) := by
  cases c <;> simp only [setBal, NonnegLocked] at * <;> tauto

theorem getBal_nonneg (l : Ledger) (c : Currency) (hv : NonnegLocked l) :
    0 ≤ (getBal l c).locked := by
  cases c <;> simp only [getBal, NonnegLocked] at * <;> tauto

theorem getBal_setBal_same (l : Ledger) (c : Currency) (b : Balance) :
    getBal (setBal l c b) c = b := by
  cases c <;> simp [getBal, setBal]

/-! ## Claim theorems -/

/-- C10 (amended): calculate_spread_fast is total and its division is
guarded: with either price nonpositive it returns the invalid zero
dictionary, and with both prices positive the divisor min(usdt, usdc) is
positive and it returns valid with the absolute spread rounded to six
decimal places and the percentage spread rounded to four. -/
theorem claim_C10_amended (u c : ℚ) :
    (u ≤ 0 ∨ c ≤ 0 →
      calculate_spread_fast u c =
        { spread := 0, spread_pct := 0, usdt_higher := none, valid := false }) ∧
    (0 < u → 0 < c →
      0 < min u c ∧
      calculate_spread_fast u c =
        { spread := roundTo |u - c| 6
          spread_pct := roundTo (|u - c| / min u c * 100) 4
          usdt_higher := some (decide (u > c))
          valid := true }) := by
  constructor
  · intro h
    simp [calculate_spread_fast, h]
  · intro hu hc
    have hnot : ¬(u ≤ 0 ∨ c ≤ 0) := by
      push_neg
      exact ⟨hu, hc⟩
    refine ⟨lt_min hu hc, ?_⟩
    rw [calculate_spread_fast, if_neg hnot]

/-- C10 witness: the guard branch at prices (0, 1) and the valid branch at
the Example-1 prices, both through the amended theorem. -/
theorem claim_C10_witness :
    ((0 : ℚ) ≤ 0 ∨ (1 : ℚ) ≤ 0) ∧
    calculate_spread_fast 0 1 =
      { spread := 0, spread_pct := 0, usdt_higher := none, valid := false } ∧
    (0 : ℚ) < 0.5210 ∧ (0 : ℚ) < 0.5190 ∧
    (calculate_spread_fast 0.5210 0.5190).valid = true := by
  refine ⟨Or.inl le_rfl, (claim_C10_amended 0 1).1 (Or.inl le_rfl), by norm_num, by norm_num, ?_⟩
  rw [((claim_C10_amended 0.5210 0.5190).2 (by norm_num) (by norm_num)).2]

/-- C10 counterexample: at prices 0.5210 and 0.5190 the returned
spread_pct is the rounded 0.3854, not the exact quotient the claim states,
so the claimed exact equality fails. -/
theorem claim_C10_counterexample :
    (calculate_spread_fast 0.5210 0.5190).spread_pct = 0.3854 ∧
    (calculate_spread_fast 0.5210 0.5190).spread_pct ≠
      |(0.5210 : ℚ) - 0.5190| / min (0.5210 : ℚ) 0.5190 * 100 := by
  have habs : |(0.5210 : ℚ) - 0.5190| = 0.002 := by
    rw [abs_of_pos (by norm_num : (0 : ℚ) < 0.5210 - 0.5190)]
    norm_num
  have hmin : min (0.5210 : ℚ) 0.5190 = 0.5190 := by
    rw [min_eq_right (by norm_num : (0.5190 : ℚ) ≤ 0.5210)]
  have hd : decRound (|(0.5210 : ℚ) - 0.5190| / min (0.5210 : ℚ) 0.5190 * 100) 4 = 3854 := by
    rw [habs, hmin]
    norm_num [decRound]
  have h1 : (calculate_spread_fast 0.5210 0.5190).spread_pct = 0.3854 := by
    rw [calculate_spread_fast, if_neg (by norm_num)]
    simp only [roundTo, hd]
    norm_num
  refine ⟨h1, ?_⟩
  rw [h1, habs, hmin]
  norm_num

/-- C5: the spread-sanity check compares the percent-valued
spread_percentage field against the raw fraction 0.05, so an opportunity
whose spread is 0.385 percent, although above the 0.3 percent threshold and
far below 5 percent, is rejected as too large; the very comment in the code says
a spread above 5 percent is what should be suspicious. -/
theorem claim_C5_codebug :
    (0.003 : ℚ) * 100 ≤ (0.385 : ℚ) ∧ (0.385 : ℚ) ≤ 5 ∧
    check_spread_validity opp385 0.003 =
      { safe := false, reason := "Spread too large, possible data error: 0.3850" } := by
  refine ⟨by norm_num, by norm_num, ?_⟩
  rw [check_spread_validity]
  rw [show opp385.spread_percentage = 0.385 from rfl]
  rw [if_neg (by norm_num), if_pos (by norm_num), fmtFixed_0385_4]
  decide

/-- C7 (amended): the balance-safety check fails exactly when free XRP is
below amount times (1 + risk_buffer) or both stablecoin balances are below
the estimated cost with the same buffer; when the XRP margin fails, the
reason renders both quantities with two decimal places. -/
theorem claim_C7_amended (env : RiskEnv) (a rb : ℚ) :
    ((check_balance_safety env a rb).safe = false ↔
      env.xrpFree < a * (1 + rb) ∨
        (env.usdtFree < a * 0.52 * (1 + rb) ∧ env.usdcFree < a * 0.52 * (1 + rb))) ∧
    (env.xrpFree < a * (1 + rb) →
      (check_balance_safety env a rb).reason =
        "Insufficient XRP balance with safety margin: " ++ fmtFixed env.xrpFree 2
          ++ " < " ++ fmtFixed (a * (1 + rb)) 2) := by
  unfold check_balance_safety
  dsimp only
  split_ifs with h1 h2
  · exact ⟨by simp [h1], fun _ => rfl⟩
  · exact ⟨by simp [h1, h2], fun hx => absurd hx h1⟩
  · exact ⟨by simp [h1, h2], fun hx => absurd hx h1⟩

/-- C7 witness: the Example-3 inputs (80 XRP free, amount 100, buffer 0.1)
instantiate the amended theorem; the check fails and renders 80.00 and
110.00. -/
theorem claim_C7_witness :
    env80.xrpFree < 100 * (1 + 0.1) ∧
    (check_balance_safety env80 100 0.1).safe = false ∧
    (check_balance_safety env80 100 0.1).reason =
      "Insufficient XRP balance with safety margin: 80.00 < 110.00" := by
  have hx : env80.xrpFree < (100 : ℚ) * (1 + 0.1) := by norm_num [env80]
  have h := claim_C7_amended env80 100 0.1
  refine ⟨hx, h.1.mpr (Or.inl hx), ?_⟩
  rw [h.2 hx]
  rw [show env80.xrpFree = 80 from rfl]
  rw [show (100 : ℚ) * (1 + 0.1) = 110 by norm_num]
  rw [fmtFixed_80_2, fmtFixed_110_2]
  decide

/-- C7 counterexample: at the Example-3 inputs the check does fail, but its
reason string carries two decimal places (80.00 and 110.00), not the
claimed exact text 80 less-than 110. -/
theorem claim_C7_counterexample :
    (check_balance_safety env80 100 0.1).safe = false ∧
    (check_balance_safety env80 100 0.1).reason ≠
      "Insufficient XRP balance with safety margin: 80 < 110" := by
  have hx : env80.xrpFree < (100 : ℚ) * (1 + 0.1) := by norm_num [env80]
  have h := claim_C7_amended env80 100 0.1
  refine ⟨h.1.mpr (Or.inl hx), ?_⟩
  rw [h.2 hx]
  rw [show env80.xrpFree = 80 from rfl]
  rw [show (100 : ℚ) * (1 + 0.1) = 110 by norm_num]
  rw [fmtFixed_80_2, fmtFixed_110_2]
  decide

/-- C3 (amended): with nonnegative amounts, lock and unlock preserve the
full invariant 0 ≤ locked ≤ total; update_balance (the adjust settlement
operation) preserves nonnegative locked amounts and keeps the adjusted
total nonnegative, but it does not re-establish locked ≤ total. -/
theorem claim_C3_amended :
    (∀ (l : Ledger) (c : Currency) (a : ℚ) (l' : Ledger), ValidLedger l → 0 ≤ a →
      lock_balance l c a = some l' → ValidLedger l') ∧
    (∀ (l : Ledger) (c : Currency) (a : ℚ) (l' : Ledger), ValidLedger l → 0 ≤ a →
      unlock_balance l c a = some l' → ValidLedger l') ∧
    (∀ (l : Ledger) (c : Currency) (d : ℚ) (l' : Ledger), NonnegLocked l →
      update_balance l c d = some l' → NonnegLocked l' ∧ 0 ≤ (getBal l' c).amount) := by
  refine ⟨?_, ?_, ?_⟩
  · intro l c a l' hv ha hl
    unfold lock_balance at hl
    dsimp only at hl
    split_ifs at hl with h
    cases hl
    have hb := getBal_valid l c hv
    apply setBal_valid l c _ hv
    constructor
    · exact add_nonneg hb.1 ha
    · simp only [availableOf, not_lt] at h
      have := hb.2
      simp only []
      linarith
  · intro l c a l' hv ha hl
    unfold unlock_balance at hl
    dsimp only at hl
    split_ifs at hl with h
    cases hl
    have hb := getBal_valid l c hv
    apply setBal_valid l c _ hv
    constructor
    · simp only [not_lt] at h
      simp only []
      linarith
    · have := hb.1
      have := hb.2
      simp only []
      linarith
  · intro l c d l' hv hl
    unfold update_balance at hl
    dsimp only at hl
    split_ifs at hl with h
    cases hl
    constructor
    · exact setBal_nonneg l c _ hv (getBal_nonneg l c hv)
    · rw [getBal_setBal_same]
      simp only [not_lt] at h
      exact h

/-- C3 witness: locking 10 XRP on the well-formed thousand-each ledger
keeps the invariant, through the amended theorem. -/
theorem claim_C3_witness :
    ValidLedger led0 ∧ (0 : ℚ) ≤ 10 ∧
    lock_balance led0 Currency.XRP 10 =
      some
        { xrp := { amount := 1000, locked := 10 }
          usdt := { amount := 1000, locked := 0 }
          usdc := { amount := 1000, locked := 0 } } ∧
    ValidLedger
      { xrp := { amount := 1000, locked := 10 }
        usdt := { amount := 1000, locked := 0 }
        usdc := { amount := 1000, locked := 0 } } := by
  have hv : ValidLedger led0 := by
    norm_num [ValidLedger, ValidBalance, led0]
  have hl :
      lock_balance led0 Currency.XRP 10 =
        some
          { xrp := { amount := 1000, locked := 10 }
            usdt := { amount := 1000, locked := 0 }
            usdc := { amount := 1000, locked := 0 } } := by
    rw [lock_balance]
    rw [if_neg (by norm_num [led0, getBal, availableOf])]
    norm_num [led0, getBal, setBal]
  exact ⟨hv, by norm_num,  hl,
    claim_C3_amended.1 led0 Currency.XRP 10 _ hv (by norm_num) hl⟩

/-- C3 counterexample: on the row total 100, locked 50, the settlement
adjust of minus 60 succeeds (the total stays nonnegative) and leaves
locked 50 above total 40, violating the claimed invariant. -/
theorem claim_C3_counterexample :
    update_balance
        { xrp := { amount := 100, locked := 50 }
          usdt := { amount := 0, locked := 0 }
          usdc := { amount := 0, locked := 0 } }
        Currency.XRP (-60) =
      some
        { xrp := { amount := 40, locked := 50 }
          usdt := { amount := 0, locked := 0 }
          usdc := { amount := 0, locked := 0 } } ∧
    ¬ ValidLedger
        { xrp := { amount := 40, locked := 50 }
          usdt := { amount := 0, locked := 0 }
          usdc := { amount := 0, locked := 0 } } := by
  constructor
  · rw [update_balance]
    rw [if_neg (by norm_num [getBal])]
    norm_num [getBal, setBal]
  · intro hv
    have h := hv.1.2
    norm_num at h

/-- C9: handling a timed-out order increments exactly the counter of the
handled type by one, and the order_timeout circuit breaker is activated exactly
when the incremented counter exceeds five: at six it activates (and the
category reads active), at five or below the breaker map is untouched. -/
theorem claim_C9 (api : APIConn) (led : Ledger) (counts : String → ℕ)
    (cb : String → BreakerState) (trade : Trade) (ot : String) (now : ℕ) :
    ((handle_timeout_order api led counts cb trade ot now).counts ot = counts ot + 1) ∧
    (∀ ty, ty ≠ ot → (handle_timeout_order api led counts cb trade ot now).counts ty = counts ty) ∧
    (counts ot + 1 > 5 →
      (handle_timeout_order api led counts cb trade ot now).cb =
        activate_circuit_breaker cb ("order_timeout")
          ("过多" ++ ot ++ "订单超时: " ++ toString (counts ot + 1) ++ "次")
          (some (counts ot + 1)) (some 5) ∧
      ((handle_timeout_order api led counts cb trade ot now).cb ("order_timeout")).active = true) ∧
    (counts ot + 1 ≤ 5 → (handle_timeout_order api led counts cb trade ot now).cb = cb) := by
  refine ⟨by simp [handle_timeout_order], ?_, ?_, ?_⟩
  · intro ty hty
    simp [handle_timeout_order, hty]
  · intro h
    have hcb :
        (handle_timeout_order api led counts cb trade ot now).cb =
          activate_circuit_breaker cb ("order_timeout")
            ("过多" ++ ot ++ "订单超时: " ++ toString (counts ot + 1) ++ "次")
            (some (counts ot + 1)) (some 5) := by
      simp [handle_timeout_order, h]
    refine ⟨hcb, ?_⟩
    rw [hcb]
    simp [activate_circuit_breaker]
  · intro h
    have h5 : ¬ counts ot + 1 > 5 := by omega
    simp [handle_timeout_order, h5]

/-- C9 witness: with the counter for market_order at five, one more timeout
event raises it to six and flips the order_timeout breaker to active,
through the claim theorem. -/
theorem claim_C9_witness :
    (5 : ℕ) + 1 > 5 ∧
    ((handle_timeout_order connAllClosed led0 (fun _ => 5) cbInit tradePending1
        ("market_order") 13).cb ("order_timeout")).active = true := by
  refine ⟨by norm_num, ?_⟩
  exact ((claim_C9 connAllClosed led0 (fun _ => 5) cbInit tradePending1
    ("market_order") 13).2.2.1 (by norm_num)).2

/-- C6: check_trade_risk equals the first failing result of its six checks
run in the order daily volume, balance safety, pending orders, volatility,
spread validity, trading frequency (so the reason is the first failing
reason of the first failing check, independent of later checks), and it is safe exactly when
all six checks are safe. -/
theorem claim_C6 (env : RiskEnv) (opp : Opportunity) (cfg : TradingConfig) :
    check_trade_risk env opp cfg =
      firstFailure
        [check_daily_volume_limit env opp.amount cfg.daily_max_volume,
         check_balance_safety env opp.amount cfg.risk_buffer,
         check_pending_orders_limit env cfg.max_pending_orders,
         check_price_volatility env,
         check_spread_validity opp cfg.spread_threshold,
         check_trading_frequency env] ∧
    ((check_trade_risk env opp cfg).safe = true ↔
      (check_daily_volume_limit env opp.amount cfg.daily_max_volume).safe = true ∧
      (check_balance_safety env opp.amount cfg.risk_buffer).safe = true ∧
      (check_pending_orders_limit env cfg.max_pending_orders).safe = true ∧
      (check_price_volatility env).safe = true ∧
      (check_spread_validity opp cfg.spread_threshold).safe = true ∧
      (check_trading_frequency env).safe = true) := by
  cases h1 : (check_daily_volume_limit env opp.amount cfg.daily_max_volume).safe <;>
  cases h2 : (check_balance_safety env opp.amount cfg.risk_buffer).safe <;>
  cases h3 : (check_pending_orders_limit env cfg.max_pending_orders).safe <;>
  cases h4 : (check_price_volatility env).safe <;>
  cases h5 : (check_spread_validity opp cfg.spread_threshold).safe <;>
  cases h6 : (check_trading_frequency env).safe <;>
    simp [check_trade_risk, firstFailure, h1, h2, h3, h4, h5, h6]

/-- C4: opportunity detection computes the percentage spread against the
lower price, rejects anything below the larger of threshold times 100 and
the 0.08 minimum profitable spread, and any produced opportunity sells the
higher-priced pair and buys the lower-priced one; the Example-1 prices
0.5210 and 0.5190 with threshold 0.003 (under ample liquidity and balances)
yield an opportunity selling XRP/USDT, and identical prices yield none. -/
theorem claim_C4 :
    (∀ (env : RiskEnv) (cfg : TradingConfig) (u c : PricePoint),
      spreadPctOf u.price c.price < max (cfg.spread_threshold * 100) 0.08 →
      detect_arbitrage_opportunity env cfg u c = none) ∧
    (∀ (env : RiskEnv) (cfg : TradingConfig) (u c : PricePoint) (o : Opportunity),
      detect_arbitrage_opportunity env cfg u c = some o →
      o.sell_pair = (if u.price > c.price then "XRP/USDT" else "XRP/USDC") ∧
      o.buy_pair = (if u.price > c.price then "XRP/USDC" else "XRP/USDT") ∧
      o.spread_percentage = spreadPctOf u.price c.price) ∧
    ((detect_arbitrage_opportunity env1 cfg1 { price := 0.5210, volume := 5000 }
        { price := 0.5190, volume := 5000 }).map Opportunity.sell_pair = some ("XRP/USDT")) ∧
    (∀ (env : RiskEnv) (cfg : TradingConfig) (p v1 v2 : ℚ),
      detect_arbitrage_opportunity env cfg { price := p, volume := v1 }
        { price := p, volume := v2 } = none) := by
  refine ⟨?_, ?_, ?_, ?_⟩
  · intro env cfg u c h
    unfold detect_arbitrage_opportunity
    dsimp only
    by_cases hc : u.price > c.price
    · rw [if_pos hc]
      dsimp only
      rw [spreadPctOf, if_pos hc] at h
      rw [if_pos h]
    · rw [if_neg hc]
      dsimp only
      rw [spreadPctOf, if_neg hc] at h
      rw [if_pos h]
  · intro env cfg u c o h
    unfold detect_arbitrage_opportunity at h
    dsimp only at h
    by_cases hc : u.price > c.price
    · rw [if_pos hc] at h
      dsimp only at h
      split_ifs at h
      injection h with h'
      subst h'
      refine ⟨by rw [if_pos hc], by rw [if_pos hc], ?_⟩
      rw [spreadPctOf, if_pos hc]
    · rw [if_neg hc] at h
      dsimp only at h
      split_ifs at h
      injection h with h'
      subst h'
      refine ⟨by rw [if_neg hc], by rw [if_neg hc], ?_⟩
      rw [spreadPctOf, if_neg hc]
  · norm_num [detect_arbitrage_opportunity, calculate_max_safe_trade_amount,
      env1, cfg1, min_def, max_def]
  · intro env cfg p v1 v2
    unfold detect_arbitrage_opportunity
    dsimp only
    rw [if_neg (lt_irrefl p)]
    dsimp only
    have h0 : (p - p) / p * 100 = 0 := by
      simp
    rw [h0]
    rw [if_pos (lt_of_lt_of_le (by norm_num)
      (le_max_right (cfg.spread_threshold * 100) 0.08))]

/-- C4 witness: the too-small-spread branch instantiated at equal prices
0.52 with threshold 0.003 (where the percentage spread is zero), through
the claim theorem. -/
theorem claim_C4_witness :
    spreadPctOf (0.52 : ℚ) 0.52 < max ((0.003 : ℚ) * 100) 0.08 ∧
    detect_arbitrage_opportunity env1 cfg1 { price := 0.52, volume := 5000 }
      { price := 0.52, volume := 5000 } = none := by
  have hs : spreadPctOf (0.52 : ℚ) 0.52 < max ((0.003 : ℚ) * 100) 0.08 := by
    rw [spreadPctOf, if_neg (lt_irrefl (0.52 : ℚ))]
    rw [max_eq_left (by norm_num : (0.08 : ℚ) ≤ 0.003 * 100)]
    norm_num
  refine ⟨hs, ?_⟩
  have hcfg : cfg1.spread_threshold = 0.003 := rfl
  exact claim_C4.1 env1 cfg1 _ _ (by rw [hcfg]; exact hs)

theorem sell_shape (api : APIConn) (led : Ledger) (pair : String) (a p : ℚ) (t : ℕ)
    (r : LegResult) (hr : execute_sell_order api led pair a p t = r) :
    (r.trade = none ∧ r.log = [] ∧ r.clock = t) ∨
    (r.log = [{ tag := "submit_sell", time := t }] ∧
      (r.clock = t + 1 ∨ r.clock = t + 2)) ∨
    (r.log = [{ tag := "submit_sell", time := t },
        { tag := "complete_sell", time := t + 1 }] ∧ r.clock = t + 2) := by
  subst hr
  unfold execute_sell_order
  cases hchk : check_sufficient_balance led Currency.XRP a
  · simp
  · dsimp only
    cases hlock : lock_balance led Currency.XRP a with
    | none => simp
    | some led1 =>
      dsimp only
      cases hco : api.create_order pair ("market") ("sell") a with
      | none => simp
      | some op =>
        obtain ⟨oid, price⟩ := op
        dsimp only
        cases hst : api.get_order_status oid pair with
        | none => simp
        | some st =>
          dsimp only
          by_cases hcl : st = "closed"
          · subst hcl
            rw [if_pos rfl]
            cases hu : unlock_balance led1 Currency.XRP a with
            | none => simp
            | some led2 =>
              dsimp only
              cases hx : update_balance led2 Currency.XRP (-a) with
              | none => simp
              | some led3 =>
                dsimp only
                cases hy : update_balance led3 (currencyOfPair pair) (a * price) with
                | none => simp
                | some led4 => simp
          · rw [if_neg hcl]
            simp

theorem buy_shape (api : APIConn) (led : Ledger) (pair : String) (a p : ℚ) (t : ℕ)
    (r : LegResult) (hr : execute_buy_order api led pair a p t = r) :
    (r.trade = none ∧ r.log = [] ∧ r.clock = t) ∨
    (r.log = [{ tag := "submit_buy", time := t }] ∧
      (r.clock = t + 1 ∨ r.clock = t + 2)) ∨
    (r.log = [{ tag := "submit_buy", time := t },
        { tag := "complete_buy", time := t + 1 }] ∧ r.clock = t + 2) := by
  subst hr
  unfold execute_buy_order
  cases hchk : check_sufficient_balance led (currencyOfPair pair) (a * p)
  · simp [hchk]
  · cases hlock : lock_balance led (currencyOfPair pair) (a * p) with
    | none => simp [hchk, hlock]
    | some led1 =>
      cases hco : api.create_order pair ("market") ("buy") a with
      | none => simp [hchk, hlock, hco]
      | some op =>
        obtain ⟨oid, price⟩ := op
        cases hst : api.get_order_status oid pair with
        | none => simp [hchk, hlock, hco, hst]
        | some st =>
          by_cases hcl : st = "closed"
          · subst hcl
            cases hu : unlock_balance led1 (currencyOfPair pair) (a * p) with
            | none => simp [hchk, hlock, hco, hst, hu]
            | some led2 =>
              cases hx : update_balance led2 (currencyOfPair pair) (-(a * price)) with
              | none => simp [hchk, hlock, hco, hst, hu, hx]
              | some led3 =>
                cases hy : update_balance led3 Currency.XRP a with
                | none => simp [hchk, hlock, hco, hst, hu, hx, hy]
                | some led4 => simp [hchk, hlock, hco, hst, hu, hx, hy]
          · simp [hchk, hlock, hco, hst, hcl]

/-- C1 (amended): the sell leg is always submitted before the buy leg: a
buy-submission event implies a sell-submission event strictly earlier, and
whenever a sell-completion event exists at all, it is at or before every
buy-submission event. The sell Trade itself, however, need not have reached
completed when the buy leg is submitted (see the counterexample). -/
theorem claim_C1_amended (api : APIConn) (led : Ledger) (opp : Opportunity) (t : ℕ) :
    (∀ tb, ({ tag := "submit_buy", time := tb } : Ev) ∈ (execute_arbitrage_trade api led opp t).log →
      ({ tag := "submit_sell", time := t } : Ev) ∈ (execute_arbitrage_trade api led opp t).log ∧
        t < tb) ∧
    (∀ ts tb,
      ({ tag := "complete_sell", time := ts } : Ev) ∈ (execute_arbitrage_trade api led opp t).log →
      ({ tag := "submit_buy", time := tb } : Ev) ∈ (execute_arbitrage_trade api led opp t).log →
      ts ≤ tb) := by
  have hs := sell_shape api led opp.sell_pair opp.amount opp.sell_price t _ rfl
  set s := execute_sell_order api led opp.sell_pair opp.amount opp.sell_price t with hsdef
  have hb := buy_shape api s.led opp.buy_pair opp.amount opp.buy_price s.clock _ rfl
  set b := execute_buy_order api s.led opp.buy_pair opp.amount opp.buy_price s.clock with hbdef
  have hlog : ((execute_arbitrage_trade api led opp t).log = s.log ∧ s.trade = none) ∨
      ((execute_arbitrage_trade api led opp t).log = s.log ++ b.log ∧ s.trade ≠ none) := by
    unfold execute_arbitrage_trade
    rw [← hsdef]
    dsimp only
    cases hstr : s.trade with
    | none =>
      left
      exact ⟨rfl, rfl⟩
    | some st =>
      refine Or.inr ⟨?_, by simp [hstr]⟩
      rw [← hbdef]
      cases b.trade <;> rfl
  have hsell_clock : s.trade ≠ none → t < s.clock := by
    intro hne
    rcases hs with ⟨h1, _, _⟩ | ⟨_, h2 | h2⟩ | ⟨_, h2⟩ <;> first
      | exact absurd h1 hne
      | omega
  have hsell_submit : s.trade ≠ none →
      ({ tag := "submit_sell", time := t } : Ev) ∈ s.log := by
    intro hne
    rcases hs with ⟨h1, _, _⟩ | ⟨h2, _⟩ | ⟨h2, _⟩ <;> first
      | exact absurd h1 hne
      | simp [h2]
  have hsell_no_buy : ∀ tb, ({ tag := "submit_buy", time := tb } : Ev) ∉ s.log := by
    intro tb hmem
    rcases hs with ⟨_, h2, _⟩ | ⟨h2, _⟩ | ⟨h2, _⟩ <;> rw [h2] at hmem <;> simp at hmem
  have hbuy_no_cs : ∀ ts, ({ tag := "complete_sell", time := ts } : Ev) ∉ b.log := by
    intro ts hmem
    rcases hb with ⟨_, h2, _⟩ | ⟨h2, _⟩ | ⟨h2, _⟩ <;> rw [h2] at hmem <;> simp at hmem
  have hbuy_submit_time : ∀ tb, ({ tag := "submit_buy", time := tb } : Ev) ∈ b.log →
      tb = s.clock := by
    intro tb hmem
    rcases hb with ⟨_, h2, _⟩ | ⟨h2, _⟩ | ⟨h2, _⟩
    · rw [h2] at hmem
      simp at hmem
    · rw [h2] at hmem
      simp at hmem
      omega
    · rw [h2] at hmem
      simp at hmem
      omega
  have hsell_cs_lt : ∀ ts, ({ tag := "complete_sell", time := ts } : Ev) ∈ s.log →
      ts < s.clock := by
    intro ts hmem
    rcases hs with ⟨_, h2, _⟩ | ⟨h2, hc⟩ | ⟨h2, hc⟩
    · rw [h2] at hmem
      simp at hmem
    · rw [h2] at hmem
      simp at hmem
    · rw [h2] at hmem
      simp at hmem
      omega
  constructor
  · intro tb htb
    rcases hlog with ⟨hl, _⟩ | ⟨hl, hne⟩
    · rw [hl] at htb
      exact absurd htb (hsell_no_buy tb)
    · rw [hl] at htb ⊢
      rcases List.mem_append.mp htb with h | h
      · exact absurd h (hsell_no_buy tb)
      · have ht1 := hbuy_submit_time tb h
        have ht2 := hsell_clock hne
        exact ⟨List.mem_append.mpr (Or.inl (hsell_submit hne)), by omega⟩
  · intro ts tb hcs htb
    rcases hlog with ⟨hl, _⟩ | ⟨hl, hne⟩
    · rw [hl] at htb
      exact absurd htb (hsell_no_buy tb)
    · rw [hl] at hcs htb
      rcases List.mem_append.mp hcs with h | h
      · rcases List.mem_append.mp htb with h' | h'
        · exact absurd h' (hsell_no_buy tb)
        · have ht1 := hbuy_submit_time tb h'
          have ht2 := hsell_cs_lt ts h
          omega
      · exact absurd h (hbuy_no_cs ts)

theorem cur_usdt : currencyOfPair ("XRP/USDT") = Currency.USDT := by
  rfl

theorem cur_usdc : currencyOfPair ("XRP/USDC") = Currency.USDC := by
  rfl

theorem sell_eval_closed (api : APIConn)
    (hco : api.create_order ("XRP/USDT") ("market") ("sell") 100 = some (1, 0.5210))
    (hst : api.get_order_status 1 ("XRP/USDT") = some ("closed")) :
    execute_sell_order api led0 ("XRP/USDT") 100 0.5210 0 =
      { trade := some tradeSellDone
        led := { xrp := { amount := 900, locked := 0 }
                 usdt := { amount := 1052.1, locked := 0 }
                 usdc := { amount := 1000, locked := 0 } }
        log := [{ tag := "submit_sell", time := 0 }, { tag := "complete_sell", time := 1 }]
        clock := 2 } := by
  norm_num [execute_sell_order, hco, hst, check_sufficient_balance, availableOf, getBal,
    setBal, lock_balance, unlock_balance, update_balance, cur_usdt, led0, tradeSellDone]

theorem str_buy_ne_sell : ("buy" : String) ≠ "sell" := by
  decide

theorem str_open_ne_closed : ("open" : String) ≠ "closed" := by
  decide

theorem sell_eval_open :
    execute_sell_order connSellOpen led0 ("XRP/USDT") 100 0.5210 0 =
      { trade := some
          { trade_type := "sell", pair := "XRP/USDT", amount := 100, price := 0.5210
            total_value := 52.10, status := "pending", order_id := some 1
            profit_loss := none, created_at := 0, completed_at := none }
        led := { xrp := { amount := 1000, locked := 100 }
                 usdt := { amount := 1000, locked := 0 }
                 usdc := { amount := 1000, locked := 0 } }
        log := [{ tag := "submit_sell", time := 0 }]
        clock := 1 } := by
  norm_num [execute_sell_order, connSellOpen, check_sufficient_balance, availableOf, getBal,
    setBal, lock_balance, unlock_balance, update_balance, cur_usdt, led0, str_open_ne_closed]

theorem buy_eval_after_open :
    execute_buy_order connSellOpen
        { xrp := { amount := 1000, locked := 100 }
          usdt := { amount := 1000, locked := 0 }
          usdc := { amount := 1000, locked := 0 } } ("XRP/USDC") 100 0.5190 1 =
      { trade := some
          { trade_type := "buy", pair := "XRP/USDC", amount := 100, price := 0.5190
            total_value := 51.90, status := "completed", order_id := some 2
            profit_loss := none, created_at := 1, completed_at := some 2 }
        led := { xrp := { amount := 1100, locked := 100 }
                 usdt := { amount := 1000, locked := 0 }
                 usdc := { amount := 948.1, locked := 0 } }
        log := [{ tag := "submit_buy", time := 1 }, { tag := "complete_buy", time := 2 }]
        clock := 3 } := by
  norm_num [execute_buy_order, connSellOpen, check_sufficient_balance, availableOf, getBal,
    setBal, lock_balance, unlock_balance, update_balance, cur_usdc, str_buy_ne_sell,
    str_open_ne_closed]

theorem buy_eval_closed :
    execute_buy_order connAllClosed
        { xrp := { amount := 900, locked := 0 }
          usdt := { amount := 1052.1, locked := 0 }
          usdc := { amount := 1000, locked := 0 } } ("XRP/USDC") 100 0.5190 2 =
      { trade := some
          { trade_type := "buy", pair := "XRP/USDC", amount := 100, price := 0.5190
            total_value := 51.90, status := "completed", order_id := some 2
            profit_loss := none, created_at := 2, completed_at := some 3 }
        led := { xrp := { amount := 1000, locked := 0 }
                 usdt := { amount := 1052.1, locked := 0 }
                 usdc := { amount := 948.1, locked := 0 } }
        log := [{ tag := "submit_buy", time := 2 }, { tag := "complete_buy", time := 3 }]
        clock := 4 } := by
  norm_num [execute_buy_order, connAllClosed, check_sufficient_balance, availableOf, getBal,
    setBal, lock_balance, unlock_balance, update_balance, cur_usdc, str_buy_ne_sell,
    str_open_ne_closed]

theorem buy_eval_open :
    execute_buy_order connBuyOpen
        { xrp := { amount := 900, locked := 0 }
          usdt := { amount := 1052.1, locked := 0 }
          usdc := { amount := 1000, locked := 0 } } ("XRP/USDC") 100 0.5190 2 =
      { trade := some
          { trade_type := "buy", pair := "XRP/USDC", amount := 100, price := 0.5190
            total_value := 51.90, status := "pending", order_id := some 2
            profit_loss := none, created_at := 2, completed_at := none }
        led := { xrp := { amount := 900, locked := 0 }
                 usdt := { amount := 1052.1, locked := 0 }
                 usdc := { amount := 1000, locked := 51.9 } }
        log := [{ tag := "submit_buy", time := 2 }]
        clock := 3 } := by
  norm_num [execute_buy_order, connBuyOpen, check_sufficient_balance, availableOf, getBal,
    setBal, lock_balance, unlock_balance, update_balance, cur_usdc, str_buy_ne_sell,
    str_open_ne_closed]

theorem buy_eval_raise :
    execute_buy_order connBuyRaises
        { xrp := { amount := 900, locked := 0 }
          usdt := { amount := 1052.1, locked := 0 }
          usdc := { amount := 1000, locked := 0 } } ("XRP/USDC") 100 0.5190 2 =
      { trade := none
        led := { xrp := { amount := 900, locked := 0 }
                 usdt := { amount := 1052.1, locked := 0 }
                 usdc := { amount := 1000, locked := 0 } }
        log := [{ tag := "submit_buy", time := 2 }]
        clock := 3 } := by
  norm_num [execute_buy_order, connBuyRaises, check_sufficient_balance, availableOf, getBal,
    setBal, lock_balance, unlock_balance, update_balance, tryUnlock, cur_usdc, str_buy_ne_sell,
    str_open_ne_closed]

/-- C1 counterexample: with a connector that reports the sell order open and
the buy order closed, the execution submits the buy leg (and returns full
success) while the sell Trade is still pending: the log holds no
sell-completion event at all, so the buy submission is not preceded by a
sell completion and the claimed invariant fails. -/
theorem claim_C1_counterexample :
    ((execute_arbitrage_trade connSellOpen led0 opp0 0).log.map Ev.tag =
      ["submit_sell", "submit_buy", "complete_buy"]) ∧
    sellStatusOf (execute_arbitrage_trade connSellOpen led0 opp0 0).result = some "pending" ∧
    isSuccessRes (execute_arbitrage_trade connSellOpen led0 opp0 0).result = true := by
  unfold execute_arbitrage_trade
  rw [show opp0.sell_pair = "XRP/USDT" from rfl, show opp0.amount = (100 : ℚ) from rfl,
    show opp0.sell_price = (0.5210 : ℚ) from rfl, show opp0.buy_pair = "XRP/USDC" from rfl,
    show opp0.buy_price = (0.5190 : ℚ) from rfl]
  rw [sell_eval_open]
  dsimp only
  rw [buy_eval_after_open]
  exact ⟨rfl, rfl, rfl⟩

/-- C1 witness: with a connector closing both legs, the sell completion is
logged at tick 1 and the buy submission at tick 2, and the amended theorem
yields the ordering 1 at-or-before 2. -/
theorem claim_C1_witness :
    ({ tag := "complete_sell", time := 1 } : Ev) ∈
      (execute_arbitrage_trade connAllClosed led0 opp0 0).log ∧
    ({ tag := "submit_buy", time := 2 } : Ev) ∈
      (execute_arbitrage_trade connAllClosed led0 opp0 0).log ∧
    (1 : ℕ) ≤ 2 := by
  have hlog : (execute_arbitrage_trade connAllClosed led0 opp0 0).log =
      [{ tag := "submit_sell", time := 0 }, { tag := "complete_sell", time := 1 },
       { tag := "submit_buy", time := 2 }, { tag := "complete_buy", time := 3 }] := by
    unfold execute_arbitrage_trade
    rw [show opp0.sell_pair = "XRP/USDT" from rfl, show opp0.amount = (100 : ℚ) from rfl,
      show opp0.sell_price = (0.5210 : ℚ) from rfl, show opp0.buy_pair = "XRP/USDC" from rfl,
      show opp0.buy_price = (0.5190 : ℚ) from rfl]
    rw [sell_eval_closed connAllClosed rfl rfl]
    dsimp only
    rw [buy_eval_closed]
    rfl
  have hmem1 : ({ tag := "complete_sell", time := 1 } : Ev) ∈
      (execute_arbitrage_trade connAllClosed led0 opp0 0).log := by
    rw [hlog]
    simp
  have hmem2 : ({ tag := "submit_buy", time := 2 } : Ev) ∈
      (execute_arbitrage_trade connAllClosed led0 opp0 0).log := by
    rw [hlog]
    simp
  exact ⟨hmem1, hmem2, (claim_C1_amended connAllClosed led0 opp0 0).2 1 2 hmem1 hmem2⟩

/-- C2 (amended): when the sell leg returns a trade and the buy leg then
raises (its handler returns None), execute_arbitrage_trade returns the bare
sell trade: a value distinct from both the None of total failure and the
ordinary success dictionary, referencing the sell Trade. When the buy order
is merely reported unfilled, however, an ordinary success dictionary with
the pending buy trade is returned instead (see the counterexample). -/
theorem claim_C2_amended (api : APIConn) (led : Ledger) (opp : Opportunity) (t : ℕ) (s : Trade)
    (hs : (execute_sell_order api led opp.sell_pair opp.amount opp.sell_price t).trade = some s)
    (hb : (execute_buy_order api
        (execute_sell_order api led opp.sell_pair opp.amount opp.sell_price t).led
        opp.buy_pair opp.amount opp.buy_price
        (execute_sell_order api led opp.sell_pair opp.amount opp.sell_price t).clock).trade =
      none) :
    (execute_arbitrage_trade api led opp t).result = ExecResult.sellOnly s ∧
    ExecResult.sellOnly s ≠ ExecResult.failed ∧
    ∀ (st bt : Trade) (pl : ℚ), ExecResult.sellOnly s ≠ ExecResult.success st bt pl := by
  refine ⟨?_, by simp, by intro st bt pl; simp⟩
  unfold execute_arbitrage_trade
  dsimp only
  rw [hs]
  dsimp only
  rw [hb]

/-- C2 witness: with a connector that closes the sell order and raises on
the buy submission, the execution returns the bare completed sell trade,
through the amended theorem. -/
theorem claim_C2_witness :
    (execute_sell_order connBuyRaises led0 opp0.sell_pair opp0.amount opp0.sell_price 0).trade =
      some tradeSellDone ∧
    (execute_buy_order connBuyRaises
        (execute_sell_order connBuyRaises led0 opp0.sell_pair opp0.amount opp0.sell_price 0).led
        opp0.buy_pair opp0.amount opp0.buy_price
        (execute_sell_order connBuyRaises led0 opp0.sell_pair opp0.amount opp0.sell_price 0).clock).trade =
      none ∧
    (execute_arbitrage_trade connBuyRaises led0 opp0 0).result =
      ExecResult.sellOnly tradeSellDone := by
  have h1 : execute_sell_order connBuyRaises led0 opp0.sell_pair opp0.amount opp0.sell_price 0 =
      { trade := some tradeSellDone
        led := { xrp := { amount := 900, locked := 0 }
                 usdt := { amount := 1052.1, locked := 0 }
                 usdc := { amount := 1000, locked := 0 } }
        log := [{ tag := "submit_sell", time := 0 }, { tag := "complete_sell", time := 1 }]
        clock := 2 } := by
    rw [show opp0.sell_pair = "XRP/USDT" from rfl, show opp0.amount = (100 : ℚ) from rfl,
      show opp0.sell_price = (0.5210 : ℚ) from rfl]
    exact sell_eval_closed connBuyRaises rfl rfl
  have hs : (execute_sell_order connBuyRaises led0 opp0.sell_pair opp0.amount
      opp0.sell_price 0).trade = some tradeSellDone := by
    rw [h1]
  have hb : (execute_buy_order connBuyRaises
      (execute_sell_order connBuyRaises led0 opp0.sell_pair opp0.amount opp0.sell_price 0).led
      opp0.buy_pair opp0.amount opp0.buy_price
      (execute_sell_order connBuyRaises led0 opp0.sell_pair opp0.amount
        opp0.sell_price 0).clock).trade = none := by
    rw [h1, show opp0.buy_pair = "XRP/USDC" from rfl, show opp0.amount = (100 : ℚ) from rfl,
      show opp0.buy_price = (0.5190 : ℚ) from rfl]
    dsimp only
    rw [buy_eval_raise]
  exact ⟨hs, hb, (claim_C2_amended connBuyRaises led0 opp0 0 tradeSellDone hs hb).1⟩

/-- C2 counterexample: with a connector that closes the sell order but
leaves the buy order open (the buy order does not complete), the execution
returns an ordinary success dictionary whose buy trade is still pending,
instead of the claimed distinct partial-failure signal. -/
theorem claim_C2_counterexample :
    sellStatusOf (execute_arbitrage_trade connBuyOpen led0 opp0 0).result = some "completed" ∧
    buyStatusOf (execute_arbitrage_trade connBuyOpen led0 opp0 0).result = some "pending" ∧
    isSuccessRes (execute_arbitrage_trade connBuyOpen led0 opp0 0).result = true := by
  unfold execute_arbitrage_trade
  rw [show opp0.sell_pair = "XRP/USDT" from rfl, show opp0.amount = (100 : ℚ) from rfl,
    show opp0.sell_price = (0.5210 : ℚ) from rfl, show opp0.buy_pair = "XRP/USDC" from rfl,
    show opp0.buy_price = (0.5190 : ℚ) from rfl]
  rw [sell_eval_closed connBuyOpen rfl rfl]
  dsimp only
  rw [buy_eval_open]
  exact ⟨rfl, rfl, rfl⟩

/-- C8 (amended): under a connector that always responds, every pending
Trade that carries an exchange order id and is not reported partially
filled reaches a terminal status (completed, timeout_cancelled,
timeout_failed or timeout_error) at the first supervisor poll after its
type-specific timeout, which happens within timeout plus one poll interval
of its creation; a pending trade without an order id, by contrast, is never
resolved (see the counterexample). -/
theorem claim_C8_amended (api : APIConn) (led : Ledger) (counts : String → ℕ)
    (cb : String → BreakerState) (trade : Trade) (oid : ℕ) (t0 P : ℕ)
    (hpend : trade.status = "pending") (hid : trade.order_id = some oid)
    (hnp : api.get_order_status oid trade.pair ≠ some ("partial"))
    (hP : 0 < P)
    (ht0 : t0 ≤ trade.created_at + timeout_configs (classify_order_type trade)) :
    ∃ i : ℕ,
      trade.created_at + timeout_configs (classify_order_type trade) < t0 + i * P ∧
      t0 + i * P ≤ trade.created_at + timeout_configs (classify_order_type trade) + P ∧
      isTerminalStatus
        (supervise_trade_step api led counts cb trade (t0 + i * P)).trade.status = true := by
  set T := trade.created_at + timeout_configs (classify_order_type trade) with hT
  set q := (T - t0) / P with hq
  set r := (T - t0) % P with hr
  have hdm : P * q + r = T - t0 := Nat.div_add_mod (T - t0) P
  have hmlt : r < P := Nat.mod_lt _ hP
  have hmul : (q + 1) * P = q * P + P := by ring
  have hmul2 : q * P = P * q := by ring
  have hlt : T < t0 + (q + 1) * P := by omega
  have hle : t0 + (q + 1) * P ≤ T + P := by omega
  refine ⟨q + 1, hlt, hle, ?_⟩
  unfold supervise_trade_step
  rw [hpend]
  rw [if_pos rfl]
  dsimp only
  have hage : t0 + (q + 1) * P - trade.created_at >
      timeout_configs (classify_order_type trade) := by
    omega
  rw [if_pos hage]
  unfold handle_timeout_order
  rw [hid]
  dsimp only
  cases hgs : api.get_order_status oid trade.pair with
  | none =>
    dsimp only
    decide
  | some st =>
    dsimp only
    by_cases hcl : st = "closed"
    · subst hcl
      rw [if_pos rfl]
      dsimp only
      decide
    · rw [if_neg hcl]
      by_cases hpa : st = "partial"
      · subst hpa
        exact absurd hgs hnp
      · rw [if_neg hpa]
        cases hco : api.cancel_order oid trade.pair with
        | none =>
          dsimp only
          decide
        | some b =>
          cases b
          · dsimp only
            decide
          · dsimp only
            decide

/-- C8 witness: the pending trade with order id 1 created at tick 0, under
the always-closed connector with poll interval 2, resolves at the first
poll after its 10-tick market-order timeout, through the amended theorem. -/
theorem claim_C8_witness :
    tradePending1.status = "pending" ∧
    tradePending1.order_id = some 1 ∧
    connAllClosed.get_order_status 1 tradePending1.pair ≠ some ("partial") ∧
    (0 : ℕ) < 2 ∧
    (0 : ℕ) ≤ tradePending1.created_at + timeout_configs (classify_order_type tradePending1) ∧
    (∃ i : ℕ,
      tradePending1.created_at + timeout_configs (classify_order_type tradePending1) <
        0 + i * 2 ∧
      0 + i * 2 ≤
        tradePending1.created_at + timeout_configs (classify_order_type tradePending1) + 2 ∧
      isTerminalStatus
        (supervise_trade_step connAllClosed led0 (fun _ => 0) cbInit tradePending1
          (0 + i * 2)).trade.status = true) := by
  refine ⟨rfl, rfl, by decide, by norm_num, Nat.zero_le _, ?_⟩
  exact claim_C8_amended connAllClosed led0 (fun _ => 0) cbInit tradePending1 1 0 2
    rfl rfl (by decide) (by norm_num) (Nat.zero_le _)

/-- C8 counterexample: a pending trade whose submission recorded no exchange
order id is never resolved: three supervisor passes at ticks 13, 15 and 17,
all far beyond its 10-tick timeout plus the 2-tick poll interval, leave its
status pending (the handler only increments the timeout counter), so the
claimed guaranteed terminal state within timeout plus one poll interval
fails. -/
theorem claim_C8_counterexample :
    tradeNoOrderId.status = "pending" ∧
    timeout_configs (classify_order_type tradeNoOrderId) = 10 ∧
    (superviseIter connAllClosed tradeNoOrderId 13 2 3).status = "pending" := by
  have hcl : classify_order_type tradeNoOrderId = "market_order" := by
    rw [classify_order_type]
    rw [if_neg (by norm_num [tradeNoOrderId] : ¬ tradeNoOrderId.amount > 500)]
    decide
  have htc : timeout_configs ("market_order") = 10 := by
    decide
  refine ⟨?_, ?_, ?_⟩
  · rfl
  · rw [hcl, htc]
  have hstep : ∀ (led : Ledger) (counts : String → ℕ) (cbm : String → BreakerState) (tm : ℕ),
      tm - tradeNoOrderId.created_at > 10 →
      (supervise_trade_step connAllClosed led counts cbm tradeNoOrderId tm).trade =
        tradeNoOrderId := by
    intro led counts cbm tm htm
    unfold supervise_trade_step
    rw [show tradeNoOrderId.status = "pending" from rfl]
    rw [if_pos rfl]
    dsimp only
    rw [hcl, htc]
    rw [if_pos htm]
    unfold handle_timeout_order
    rw [show tradeNoOrderId.order_id = none from rfl]
  rw [superviseIter, hstep _ _ _ 13 (by norm_num [tradeNoOrderId])]
  rw [superviseIter, hstep _ _ _ 15 (by norm_num [tradeNoOrderId])]
  rw [superviseIter, hstep _ _ _ 17 (by norm_num [tradeNoOrderId])]
  rw [superviseIter]
  rfl

/-- C6 witness: at the Example-3 snapshot the volume check passes and the
balance check fails, so the gate returns the balance-safety result, through
the claim theorem. -/
theorem claim_C6_witness :
    check_trade_risk env80 opp385 cfg1 =
      check_balance_safety env80 opp385.amount cfg1.risk_buffer := by
  have h := (claim_C6 env80 opp385 cfg1).1
  rw [h]
  have h1 : (check_daily_volume_limit env80 opp385.amount cfg1.daily_max_volume).safe = true := by
    norm_num [check_daily_volume_limit, env80, opp385, cfg1]
  have h2 : (check_balance_safety env80 opp385.amount cfg1.risk_buffer).safe = false := by
    norm_num [check_balance_safety, env80, opp385, cfg1]
  rw [firstFailure, if_pos h1, firstFailure, if_neg (by rw [h2]; exact Bool.false_ne_true)]
